import Mathlib

/-!
A shallow embedding of the snap-pipeline webhook/orchestration core
(`src/api/main.py`, `src/api/trello_auth.py`, `src/api/script_editor.py`,
`src/config/settings.py`, `src/workers/tasks/*.py`), together with proofs
about it.  Bytes are modelled as `Nat` values below 256, machine words as
`Nat` with explicit reduction modulo 2^32, the Redis key-value store as a
function from keys to optional (value, expiry) pairs, and fallible Python
code as `Except`-valued functions.
-/

set_option maxRecDepth 200000

namespace SnapPipeline

/-- Decidable equality of verifier results, so that concrete runs can be
checked by evaluation. -/
instance : DecidableEq (Except Unit Bool) := fun x y =>
  match x, y with
  | .ok a, .ok b =>
      if h : a = b then isTrue (by rw [h])
      else isFalse (fun hh => h (Except.ok.inj hh))
  | .ok _, .error _ => isFalse (fun hh => Except.noConfusion hh)
  | .error _, .ok _ => isFalse (fun hh => Except.noConfusion hh)
  | .error u, .error v => isTrue (by cases u; cases v; rfl)

/-! ## Byte-level primitives (SHA-1, HMAC, base64, UTF-8)

These embed the CPython library routines used by
`src/api/trello_auth.py` (`hashlib.sha1`, `hmac.new`, `base64.b64encode`,
`str.encode`, `hmac.compare_digest`). -/

/-- The word modulus of SHA-1, 2^32. -/
def MOD32 : Nat := 4294967296

/-- Rotate a 32-bit word (a `Nat` below 2^32) left by `n` bits. -/
def rotl (n x : Nat) : Nat := ((x <<< n) % MOD32) ||| (x >>> (32 - n))

/-- The SHA-1 round function, by 20-round group. -/
def sha1F (i b c d : Nat) : Nat :=
  if i < 20 then (b &&& c) ||| ((b ^^^ 4294967295) &&& d)
  else if i < 40 then (b ^^^ c) ^^^ d
  else if i < 60 then ((b &&& c) ||| (b &&& d)) ||| (c &&& d)
  else (b ^^^ c) ^^^ d

/-- The SHA-1 round constant, by 20-round group. -/
def sha1K (i : Nat) : Nat :=
  if i < 20 then 1518500249
  else if i < 40 then 1859775393
  else if i < 60 then 2400959708
  else 3395469782

/-- Encode `v` big-endian on `n` bytes. -/
def beBytes : Nat → Nat → List Nat
  | 0, _ => []
  | n + 1, v => beBytes n (v / 256) ++ [v % 256]

/-- Group a byte list into big-endian 32-bit words (dropping a ragged tail,
which never occurs on 64-byte blocks). -/
def bytesToWords : List Nat → List Nat
  | b0 :: b1 :: b2 :: b3 :: rest =>
      (((b0 * 256 + b1) * 256 + b2) * 256 + b3) :: bytesToWords rest
  | _ => []

/-- Extend a reversed 16-word schedule by `n` further words
(`w[i] = rotl1 (w[i-3] xor w[i-8] xor w[i-14] xor w[i-16])`). -/
def sha1ExtendAux : Nat → List Nat → List Nat
  | 0, acc => acc
  | n + 1, acc =>
      sha1ExtendAux n
        ((rotl 1 (((acc.getD 2 0) ^^^ (acc.getD 7 0)) ^^^
          ((acc.getD 13 0) ^^^ (acc.getD 15 0)))) :: acc)

/-- The 80-word SHA-1 message schedule of one block. -/
def sha1Schedule (ws : List Nat) : List Nat :=
  (sha1ExtendAux 64 ws.reverse).reverse

/-- One SHA-1 round on the (a, b, c, d, e) state. -/
def sha1Round (st : Nat × Nat × Nat × Nat × Nat) (iw : Nat × Nat) :
    Nat × Nat × Nat × Nat × Nat :=
  match st, iw with
  | (a, b, c, d, e), (i, w) =>
      ((((rotl 5 a + sha1F i b c d) + e) + (sha1K i + w)) % MOD32,
        a, rotl 30 b, c, d)

/-- Compress one 64-byte block into the running hash state. -/
def sha1Block (h : Nat × Nat × Nat × Nat × Nat) (block : List Nat) :
    Nat × Nat × Nat × Nat × Nat :=
  match h, (sha1Schedule (bytesToWords block)).enum.foldl sha1Round h with
  | (h0, h1, h2, h3, h4), (a, b, c, d, e) =>
      ((h0 + a) % MOD32, (h1 + b) % MOD32, (h2 + c) % MOD32,
        (h3 + d) % MOD32, (h4 + e) % MOD32)

/-- Pad a message for SHA-1: a 0x80 byte, zeros to 56 mod 64, then the 64-bit
big-endian bit length. -/
def sha1Pad (msg : List Nat) : List Nat :=
  msg ++ 128 :: (List.replicate ((119 - msg.length % 64) % 64) 0
    ++ beBytes 8 (msg.length * 8))

/-- Split a byte list into 64-byte chunks (structural recursion on a fuel
argument, so that the kernel can evaluate it). -/
def chunks64Aux : Nat → List Nat → List (List Nat)
  | 0, _ => []
  | _, [] => []
  | n + 1, x :: xs => ((x :: xs).take 64) :: chunks64Aux n ((x :: xs).drop 64)

/-- Split a byte list into 64-byte chunks. -/
def chunks64 (l : List Nat) : List (List Nat) := chunks64Aux l.length l

/-- Compute the SHA-1 digest of a byte list, as 20 bytes. -/
def sha1 (msg : List Nat) : List Nat :=
  match (chunks64 (sha1Pad msg)).foldl sha1Block
      (1732584193, 4023233417, 2562383102, 271733878, 3285377520) with
  | (h0, h1, h2, h3, h4) =>
      beBytes 4 h0 ++ (beBytes 4 h1 ++ (beBytes 4 h2 ++
        (beBytes 4 h3 ++ beBytes 4 h4)))

/-- Compute HMAC-SHA1 (`hmac.new(key, msg, hashlib.sha1).digest()`): hash an
over-long key, zero-pad to the 64-byte block, XOR with opad/ipad. -/
def hmacSha1 (key msg : List Nat) : List Nat :=
  let k0 := if 64 < key.length then sha1 key else key
  let kp := k0 ++ List.replicate (64 - k0.length) 0
  sha1 ((kp.map (fun b => b ^^^ 92)) ++ sha1 ((kp.map (fun b => b ^^^ 54)) ++ msg))

/-- Encode one character as UTF-8 (Python `str.encode()`). -/
def utf8Char (c : Char) : List Nat :=
  let n := c.toNat
  if n < 128 then [n]
  else if n < 2048 then [192 + n / 64, 128 + n % 64]
  else if n < 65536 then [224 + n / 4096, 128 + (n / 64) % 64, 128 + n % 64]
  else [240 + n / 262144, 128 + (n / 4096) % 64, 128 + (n / 64) % 64, 128 + n % 64]

/-- Encode a string as UTF-8 (Python `str.encode()`). -/
def utf8Encode (s : String) : List Nat := (s.data.map utf8Char).flatten

/-- The base64 alphabet. -/
def b64Alphabet : List Char :=
  "ABCDEFGHIJKLMNOPQRSTUVWXYZabcdefghijklmnopqrstuvwxyz0123456789+/".data

/-- The base64 character of a 6-bit index. -/
def b64Char (n : Nat) : Char := b64Alphabet.getD n '='

/-- Standard base64 encoding of a byte list, with `=` padding
(`base64.b64encode`). -/
def base64Chars : List Nat → List Char
  | b0 :: b1 :: b2 :: rest =>
      b64Char (b0 / 4) :: b64Char (b0 % 4 * 16 + b1 / 16) ::
        b64Char (b1 % 16 * 4 + b2 / 64) :: b64Char (b2 % 64) :: base64Chars rest
  | [b0, b1] =>
      [b64Char (b0 / 4), b64Char (b0 % 4 * 16 + b1 / 16), b64Char (b1 % 16 * 4), '=']
  | [b0] => [b64Char (b0 / 4), b64Char (b0 % 4 * 16), '=', '=']
  | [] => []

/-- The string `base64.b64encode(l).decode()`. -/
def base64Encode (l : List Nat) : String := ⟨base64Chars l⟩

/-- Whether every character of a string is ASCII (code point below 128). -/
def isAsciiStr (s : String) : Bool := s.data.all (fun c => c.toNat < 128)

/-- CPython behavior of `hmac.compare_digest` on two `str` arguments: raises
`TypeError` (modelled as `.error ()`) unless both strings are pure ASCII;
otherwise a (timing-safe) equality test. -/
def pyCompareDigest (a b : String) : Except Unit Bool :=
  if isAsciiStr a && isAsciiStr b then .ok (a == b) else .error ()

/-- The signature Trello is expected to send:
`base64(HMAC-SHA1(secret, body || callback_url))`
(`src/api/trello_auth.py` lines 22-26). -/
def expectedTrelloSig (secret body : List Nat) (callbackUrl : String) : String :=
  base64Encode (hmacSha1 secret (body ++ utf8Encode callbackUrl))

/-- Model of `verify_trello_signature` (`src/api/trello_auth.py`): compare the
expected signature with the claimed one using `hmac.compare_digest`.
The shared secret (read from settings in the source) is a parameter. -/
def verify_trello_signature (secret body : List Nat) (signature : String)
    (callbackUrl : String) : Except Unit Bool :=
  pyCompareDigest (expectedTrelloSig secret body callbackUrl) signature

/-! ## The shared key-value store (Redis)

Every access in the source is a single atomic operation (`get`, `set` with
`ex=`, `set` with `nx=True, ex=`, `delete`).  The store is modelled as a
function from keys to optional (value, absolute expiry time) pairs, with
the current time passed explicitly. -/

/-- The Redis store: key to optional (value, absolute expiry time). -/
def RStore : Type := String → Option (String × Nat)

/-- The always-empty store. -/
def emptyStore : RStore := fun _ => none

/-- Redis `GET`: the value, if present and not expired. -/
def rget (now : Nat) (k : String) (s : RStore) : Option String :=
  match s k with
  | some (v, exp) => if now < exp then some v else none
  | none => none

/-- Redis `SET k v EX ttl`: unconditional set with a relative TTL. -/
def rsetex (now : Nat) (k v : String) (ttl : Nat) (s : RStore) : RStore :=
  fun k2 => if k2 == k then some (v, now + ttl) else s k2

/-- Redis `SET k v NX EX ttl`: atomic set-if-not-exists with a TTL.
Returns whether this call created the key. -/
def rsetnx (now : Nat) (k v : String) (ttl : Nat) (s : RStore) : Bool × RStore :=
  if (rget now k s).isSome then (false, s) else (true, rsetex now k v ttl s)

/-- Redis `DEL k`: delete the key, returning the number of (live) keys
actually deleted. -/
def rdel (now : Nat) (k : String) (s : RStore) : Nat × RStore :=
  if (rget now k s).isSome then (1, fun k2 => if k2 == k then none else s k2)
  else (0, s)

/-- The per-card script key (script-in-progress marker, then script blob,
also the script-stage idempotency lock). -/
def scriptKey (cardId : String) : String := "snap:script:" ++ cardId

/-- The per-card voice-stage idempotency lock key. -/
def voiceKey (cardId : String) : String := "snap:voice:" ++ cardId

/-- The per-card audio blob key. -/
def audioKey (cardId : String) : String := "snap:audio:" ++ cardId

/-- The per-card stats accumulator key. -/
def statsKey (cardId : String) : String := "snap:stats:" ++ cardId

/-- Model of `reset_card` (`src/api/main.py` lines 35-42): delete the
script, voice and audio keys of a card and return `keys_deleted`, the sum
of the three delete counts. -/
def reset_card (cardId : String) (now : Nat) (s : RStore) : Nat × RStore :=
  let r1 := rdel now (scriptKey cardId) s
  let r2 := rdel now (voiceKey cardId) r1.2
  let r3 := rdel now (audioKey cardId) r2.2
  (r1.1 + r2.1 + r3.1, r3.2)

/-! ## Configuration (`src/config/settings.py`) -/

/-- One configured channel (`ChannelConfig` in `src/config/settings.py`). -/
structure ChannelConfig where
  name : String
  prompt : String
  elevenlabs_voice_id : String
  category : String
  discord_role_id : String
deriving DecidableEq

/-- The pipeline configuration (`PipelineConfig` in
`src/config/settings.py`): the channel registry keyed by lower-cased
label name, plus the fixed label vocabulary set in `__init__`. -/
structure PipelineConfig where
  channels : List (String × ChannelConfig)
  trigger_label : String := "snap script"
  ready_list : String := "Videos in Edit"
  label_writing : String := "Snap: Writing Script"
  label_review : String := "Snap: Script Ready"
  label_approved : String := "Snap Approved"
  label_generating_voice : String := "Snap: Generating Voice"
  label_done : String := "Snap: Done"
  label_error : String := "Snap: Error"

/-- Lower-case one character, modelling Python `str.lower()` on the ASCII
label vocabulary used by this system. -/
def asciiLowerChar (c : Char) : Char :=
  if 65 ≤ c.toNat ∧ c.toNat ≤ 90 then Char.ofNat (c.toNat + 32) else c

/-- Lower-case a string (Python `str.lower()` on ASCII labels). -/
def strLower (s : String) : String := ⟨s.data.map asciiLowerChar⟩

/-- Python `s.endswith(suf)`. -/
def strEndsWith (s suf : String) : Bool := suf.data.isSuffixOf s.data

/-- Python `s.startswith(pre)`. -/
def pyStartsWith (s pre : String) : Bool := pre.data.isPrefixOf s.data

/-- Model of `PipelineConfig.get_channel`: dictionary lookup of the
lower-cased label name in the channel registry. -/
def get_channel (cfg : PipelineConfig) (labelName : String) : Option ChannelConfig :=
  cfg.channels.lookup (strLower labelName)

/-- The predicate `get_snap_channel` scans with: a label ending in the
channel-marker suffix `"(snap)"` that resolves to a configured channel. -/
def snapChannelPred (cfg : PipelineConfig) (name : String) : Bool :=
  strEndsWith (strLower name) "(snap)" && (get_channel cfg name).isSome

/-- Model of `PipelineConfig.get_snap_channel` (`src/config/settings.py`
lines 76-81): first label in *enumeration order* satisfying the channel
predicate.  The source iterates a Python `set`, whose enumeration order
is hash-dependent and not determined by the set's contents; the list
argument models that enumeration order. -/
def get_snap_channel (cfg : PipelineConfig) (labelNames : List String) : Option String :=
  labelNames.find? (snapChannelPred cfg)

/-! ## The event router (`src/api/main.py`, `trello_webhook`)

The decision logic of `trello_webhook` after signature verification,
as a function of the action type, the card's fetched labels (in
enumeration order), the comment text and the added label's name. -/

/-- The routing decision of `trello_webhook`. -/
inductive Route where
  | ignored (reason : String)
  | revisionQueued (channelLabel : String)
  | voiceEnqueued (channelLabel : String)
  | scriptEnqueued (channelLabel : String)
deriving DecidableEq

/-- The lower-cased label-name set built at `src/api/main.py` line 98:
`{l["name"].lower() for l in labels if l["name"]}` (empty names dropped),
kept as a list in enumeration order. -/
def labelNameSet (rawLabels : List String) : List String :=
  (rawLabels.filter (fun n => n != "")).map strLower

/-- The route decision on the already-lowered label names
(`src/api/main.py` lines 104-170, idempotency gate and dispatch
excluded — they are modelled separately). -/
def routeCore (cfg : PipelineConfig) (actionType : String)
    (labelNames : List String) (commentText : String) (addedLabel : String) : Route :=
  if actionType == "commentCard" then
    if pyStartsWith commentText "**" then .ignored "bot comment"
    else if !(labelNames.contains (strLower cfg.label_review)) then
      .ignored "card not in review"
    else
      match get_snap_channel cfg labelNames with
      | none => .ignored "no snap channel label"
      | some ch => .revisionQueued ch
  else if strLower addedLabel == strLower cfg.label_approved then
    match get_snap_channel cfg labelNames with
    | none => .ignored "no snap channel label"
    | some ch => .voiceEnqueued ch
  else if !(labelNames.contains (strLower cfg.trigger_label)) then
    .ignored "no trigger label"
  else
    match get_snap_channel cfg labelNames with
    | none => .ignored "no snap channel label"
    | some ch => .scriptEnqueued ch

/-- The full route decision of `trello_webhook`: unrecognized action types
are ignored up front (line 72), then the label names are lowered and
`routeCore` decides. -/
def trello_webhook_route (cfg : PipelineConfig) (actionType : String)
    (rawLabels : List String) (commentText : String) (addedLabel : String) : Route :=
  if actionType != "addLabelToCard" && actionType != "commentCard" then
    .ignored ("action_type=" ++ actionType)
  else routeCore cfg actionType (labelNameSet rawLabels) commentText addedLabel

/-! ## The idempotency gate (`src/api/main.py` lines 133-143, 156-170) -/

/-- The two webhook-gated stages. -/
inductive Stage where
  | script
  | voice
deriving DecidableEq

/-- The stage-scoped lock key: `snap:script:{card_id}` and
`snap:voice:{card_id}`. -/
def lockKey : Stage → String → String
  | .script, c => scriptKey c
  | .voice, c => voiceKey c

/-- The idempotency-gate `acquire`: `r.set(key, "1", nx=True, ex=86400)`;
true iff this call created the key. -/
def acquire (stage : Stage) (cardId : String) (now : Nat) (s : RStore) : Bool × RStore :=
  rsetnx now (lockKey stage cardId) "1" 86400 s

/-- The response status returned when a stage's pipeline is dispatched
(`src/api/main.py` lines 143 and 170). -/
def enqueuedStatus : Stage → String
  | .script => "script_enqueued"
  | .voice => "voice_enqueued"

/-- Gate plus dispatch (`src/api/main.py` lines 133-143 and 156-170):
the response status and whether a pipeline run is dispatched.  A caller
that loses the gate gets an ignored response and dispatches nothing. -/
def gateAndDispatch (stage : Stage) (cardId : String) (now : Nat) (s : RStore) :
    (String × Bool) × RStore :=
  let r := acquire stage cardId now s
  if r.1 then ((enqueuedStatus stage, true), r.2)
  else (("ignored", false), r.2)

/-! ## Stage executors (`src/workers/tasks/script.py`)

A stage's interactions with the outside world (Trello, the research
helper, Claude, Redis) are recorded as an ordered effect trace; the
values returned by the external collaborators on the successful path are
supplied by an environment record. -/

/-- One external interaction of a stage, in program order.  All
operations target the task's `card_id`. -/
inductive Eff where
  | trelloGetLabels
  | trelloAddLabel (label : String)
  | trelloGetCard
  | researchFetch
  | trelloGetAttachments
  | claudeWriteScript
  | claudeReviseScript
  | trelloAttachFile (name : String)
  | trelloAddComment
  | trelloRemoveLabel (label : String)
  | redisGetScript
  | redisSetScript (value : String)
  | redisGetStats
  | redisSetStats
deriving DecidableEq

/-- Whether an effect mutates external state (a Trello write, a
generation call with external cost, or a store write) as opposed to a
pure read. -/
def Eff.isExternalWrite : Eff → Bool
  | .trelloAddLabel _ => true
  | .claudeWriteScript => true
  | .claudeReviseScript => true
  | .trelloAttachFile _ => true
  | .trelloAddComment => true
  | .trelloRemoveLabel _ => true
  | .redisSetScript _ => true
  | .redisSetStats => true
  | _ => false

/-- The collaborator responses seen by one (successful) `write_script`
execution: the label fetch of the stale-work guard (which may raise,
modelled by `.error ()`), and the values produced by the body's external
calls.  `statsOf` is the serialized stats blob written back, as a
function of the previously stored one. -/
structure WriteScriptEnv where
  labelsFetch : Except Unit (List String)
  cardDesc : String
  instructions : String
  articles : List String
  imageAttachments : List (String × String)
  script : String
  researchLog : String
  statsOf : Option String → String

/-- The stale-work skip set of `write_script` (`src/workers/tasks/script.py`
lines 36-41): review, approved, generating-voice and done labels,
lower-cased. -/
def skipLabels (cfg : PipelineConfig) : List String :=
  [strLower cfg.label_review, strLower cfg.label_approved,
   strLower cfg.label_generating_voice, strLower cfg.label_done]

/-- The external-effect trace of the `_write` body plus the Redis writes
of `write_script`'s success path (`src/workers/tasks/script.py` lines
55-150), in program order. -/
def writeScriptEffects (cfg : PipelineConfig) (env : WriteScriptEnv) : List Eff :=
  [Eff.trelloAddLabel cfg.label_writing, Eff.trelloGetCard, Eff.researchFetch,
   Eff.trelloGetAttachments, Eff.claudeWriteScript,
   Eff.trelloAttachFile "script.txt", Eff.trelloAttachFile "research.txt",
   Eff.trelloAddComment, Eff.trelloRemoveLabel cfg.label_writing,
   Eff.trelloAddLabel cfg.label_review,
   Eff.redisSetScript env.script, Eff.redisGetStats, Eff.redisSetStats]

/-- The store updates of `write_script`'s success path: store the script
under the script key with the 7-day TTL (line 136), then merge and store
the stats blob (lines 139-150). -/
def writeScriptStore (env : WriteScriptEnv) (cardId : String) (now : Nat)
    (s : RStore) : RStore :=
  let s1 := rsetex now (scriptKey cardId) env.script 604800 s
  rsetex now (statsKey cardId) (env.statsOf (rget now (statsKey cardId) s1)) 604800 s1

/-- Model of the `write_script` task (`src/workers/tasks/script.py` lines
21-160) on its successful path: fetch the card's labels; if the fetch
succeeds and any (lower-cased) label is in the skip set, return
`"skipped"` without further effects; if the fetch raises, log and
proceed; otherwise run the body.  Returns (return value, effect trace,
resulting store). -/
def write_script (cfg : PipelineConfig) (env : WriteScriptEnv) (cardId : String)
    (now : Nat) (s : RStore) : String × List Eff × RStore :=
  let proceed : String × List Eff × RStore :=
    (env.script, Eff.trelloGetLabels :: writeScriptEffects cfg env,
      writeScriptStore env cardId now s)
  match env.labelsFetch with
  | .ok labels =>
      if labels.any (fun l => (skipLabels cfg).contains (strLower l)) then
        ("skipped", [Eff.trelloGetLabels], s)
      else proceed
  | .error _ => proceed

/-- The outcome of a task attempt: a return value, or re-entry into the
retry mechanism (`raise self.retry(exc=exc)`). -/
inductive TaskOutcome where
  | done (value : String)
  | retried
deriving DecidableEq

/-- The collaborator responses of one `revise_script` execution. -/
structure ReviseEnv where
  revisedScript : String

/-- Model of the `revise_script` task (`src/workers/tasks/script.py`
lines 169-228).  The body reads the script blob; a missing (or empty)
blob raises `ValueError`, which the task-level `except` catches and
converts into `self.retry` — modelled as `.retried`.  Otherwise the
revised script is stored with the 7-day TTL, attached, and a comment
posted. -/
def revise_script (env : ReviseEnv) (cardId : String) (now : Nat) (s : RStore) :
    TaskOutcome × List Eff × RStore :=
  match rget now (scriptKey cardId) s with
  | none => (.retried, [Eff.redisGetScript], s)
  | some current =>
      if current == "" then (.retried, [Eff.redisGetScript], s)
      else
        (.done env.revisedScript,
         [Eff.redisGetScript, Eff.claudeReviseScript,
          Eff.redisSetScript env.revisedScript, Eff.trelloAttachFile "script.txt",
          Eff.trelloAddComment],
         rsetex now (scriptKey cardId) env.revisedScript 604800 s)

/-! ## Retry policies (`@app.task` decorators in
`src/workers/tasks/script.py` and `src/workers/tasks/deliver.py`) -/

/-- A Celery task's retry policy: `max_retries` and
`default_retry_delay`, as set in the `@app.task` decorator. -/
structure TaskPolicy where
  max_retries : Nat
  default_retry_delay : Nat
deriving DecidableEq

/-- `write_script`: `max_retries=3, default_retry_delay=60`. -/
def writeScriptPolicy : TaskPolicy := ⟨3, 60⟩

/-- `revise_script`: `max_retries=2, default_retry_delay=30`. -/
def reviseScriptPolicy : TaskPolicy := ⟨2, 30⟩

/-- `generate_voice`: `max_retries=2, default_retry_delay=60`. -/
def generateVoicePolicy : TaskPolicy := ⟨2, 60⟩

/-- `deliver`: `max_retries=3, default_retry_delay=30`. -/
def deliverPolicy : TaskPolicy := ⟨3, 30⟩

/-- The countdown before the given retry attempt.  All four tasks retry
with `raise self.retry(exc=exc)` and no explicit countdown; Celery's
documented `Task.retry` semantics then uses the task's constant
`default_retry_delay` as the countdown, independent of the attempt
number (no `retry_backoff` is configured anywhere in the source). -/
def retryCountdown (p : TaskPolicy) (_attempt : Nat) : Nat :=
  p.default_retry_delay

/-! ## The script editor save endpoint
(`src/api/script_editor.py`, `save_script`, lines 176-218) -/

/-- The response of `save_script`, by HTTP status. -/
inductive SaveResp where
  | badRequest
  | notFound
  | saved (wordCount : Nat)
deriving DecidableEq

/-- The HTTP status code of a `save_script` response. -/
def SaveResp.statusCode : SaveResp → Nat
  | .badRequest => 400
  | .notFound => 404
  | .saved _ => 200

/-- Whether a character is Python `str.strip` / `str.split` whitespace
(ASCII range). -/
def isPySpace (c : Char) : Bool :=
  c == ' ' || c == '\t' || c == '\n' || c == '\r' || c == '\x0B' || c == '\x0C'

/-- Python `s.strip()` on ASCII whitespace. -/
def pyStrip (s : String) : String :=
  ⟨((s.data.dropWhile isPySpace).reverse.dropWhile isPySpace).reverse⟩

/-- Count maximal non-whitespace runs; the flag records whether the
previous character was inside a word. -/
def pySplitCount : List Char → Bool → Nat
  | [], _ => 0
  | c :: cs, inWord =>
      if isPySpace c then pySplitCount cs false
      else (if inWord then 0 else 1) + pySplitCount cs true

/-- Python `len(s.split())`. -/
def pyWordCount (s : String) : Nat := pySplitCount s.data false

/-- Model of the `save_script` endpoint (`src/api/script_editor.py` lines
176-218): reject a whitespace-only submission with 400; reject a card
with no existing blob under its script key with 404; otherwise overwrite
the blob with the fresh 7-day TTL.  `scriptField` is `body.get("script",
"")` (absent field modelled as `none`).  The subsequent Trello re-attach
and comment do not touch the store. -/
def save_script (cardId : String) (scriptField : Option String) (now : Nat)
    (s : RStore) : SaveResp × RStore :=
  let script := scriptField.getD ""
  if pyStrip script == "" then (.badRequest, s)
  else
    match rget now (scriptKey cardId) s with
    | none => (.notFound, s)
    | some _ => (.saved (pyWordCount script), rsetex now (scriptKey cardId) script 604800 s)

/-! ## Concrete instances used by witnesses and counterexamples -/

/-- A pipeline configuration with an empty channel registry. -/
def cfgDefault : PipelineConfig := { channels := [] }

/-- A configured channel named `ShowA (Snap)`. -/
def chA : ChannelConfig := ⟨"ShowA (Snap)", "pa", "va", "", ""⟩

/-- A configured channel named `ShowB (Snap)`. -/
def chB : ChannelConfig := ⟨"ShowB (Snap)", "pb", "vb", "", ""⟩

/-- A configuration with two registered channels. -/
def cfgTwo : PipelineConfig :=
  { channels := [("showa (snap)", chA), ("showb (snap)", chB)] }

/-- A store holding all four per-card keys of card `c1`, none expired at
time 0. -/
def store4 : RStore := fun k =>
  if k == "snap:script:c1" then some ("1", 1000)
  else if k == "snap:voice:c1" then some ("1", 1000)
  else if k == "snap:audio:c1" then some ("AUDIO", 1000)
  else if k == "snap:stats:c1" then some ("\x7b\x7d", 1000)
  else none

/-- A store holding a script blob for card `c1` only. -/
def storeS : RStore := fun k =>
  if k == "snap:script:c1" then some ("old", 100) else none

/-- A `write_script` environment whose label fetch sees the review label. -/
def envSkip : WriteScriptEnv :=
  ⟨.ok ["Snap: Script Ready", "ShowA (Snap)"], "", "", [], [], "SCRIPT", "LOG",
    fun _ => "\x7b\x7d"⟩

/-- A `write_script` environment whose label fetch raises. -/
def envErr : WriteScriptEnv :=
  ⟨.error (), "", "", [], [], "SCRIPT", "LOG", fun _ => "\x7b\x7d"⟩

/-- A `write_script` environment whose label fetch sees only the trigger
and channel labels (no skip label). -/
def envPlain : WriteScriptEnv :=
  ⟨.ok ["Snap Script", "ShowA (Snap)"], "", "", [], [], "SCRIPT", "LOG",
    fun _ => "\x7b\x7d"⟩

/-- A concrete webhook secret (UTF-8 bytes). -/
def sk0 : List Nat := utf8Encode "topsecret"

/-- A concrete request body (UTF-8 bytes of `{}`). -/
def bd0 : List Nat := utf8Encode "\x7b\x7d"

/-- A concrete callback URL. -/
def url0 : String := "https://example.com/webhooks/trello"

/-- The signature that authenticates `bd0` against `url0` under `sk0`:
`base64(HMAC-SHA1(sk0, bd0 || url0))`. -/
def sig0 : String := "GJiMWXLfuuOYDNiEfjfj7wWHAI0="

/-! ## Helper lemmas about the store model -/

/-- Reading a key just written with `rsetex` yields the value while the
TTL has not elapsed. -/
theorem rget_rsetex_same (now1 now2 : Nat) (k v : String) (ttl : Nat) (s : RStore) :
    rget now2 k (rsetex now1 k v ttl s) =
      if now2 < now1 + ttl then some v else none := by
  simp [rget, rsetex]

/-- Reading another key is unaffected by `rsetex`. -/
theorem rget_rsetex_other (now1 now2 : Nat) (k k2 v : String) (ttl : Nat)
    (s : RStore) (hne : k2 ≠ k) :
    rget now2 k2 (rsetex now1 k v ttl s) = rget now2 k2 s := by
  simp [rget, rsetex, hne]

/-- A key is dead after being deleted. -/
theorem rget_rdel_self (now : Nat) (k : String) (s : RStore) :
    rget now k (rdel now k s).2 = none := by
  by_cases h : (rget now k s).isSome
  · unfold rdel
    rw [if_pos h]
    simp [rget]
  · unfold rdel
    rw [if_neg h]
    exact Option.not_isSome_iff_eq_none.mp h

/-- Reading another key is unaffected by `rdel`. -/
theorem rget_rdel_other (now : Nat) (k k2 : String) (s : RStore) (hne : k2 ≠ k) :
    rget now k2 (rdel now k s).2 = rget now k2 s := by
  by_cases h : (rget now k s).isSome
  · unfold rdel
    rw [if_pos h]
    simp [rget, hne]
  · unfold rdel
    rw [if_neg h]

/-- The count returned by `rdel` is 1 exactly when the key was live. -/
theorem rdel_count (now : Nat) (k : String) (s : RStore) :
    (rdel now k s).1 = if (rget now k s).isSome then 1 else 0 := by
  by_cases h : (rget now k s).isSome
  · unfold rdel
    rw [if_pos h, if_pos h]
  · unfold rdel
    rw [if_neg h, if_neg h]

/-- Appending the same suffix to two different strings keeps them
different. -/
theorem append_ne_append (p q c : String) (hne : p ≠ q) : p ++ c ≠ q ++ c := by
  intro h
  apply hne
  have hd : p.data ++ c.data = q.data ++ c.data := by
    have h2 := congrArg String.data h
    simpa [String.data_append] using h2
  have h3 : p.data = q.data := List.append_cancel_right hd
  exact String.ext h3

/-- The script and voice keys of a card differ. -/
theorem scriptKey_ne_voiceKey (c : String) : scriptKey c ≠ voiceKey c :=
  append_ne_append _ _ c (by decide)

/-- The script and audio keys of a card differ. -/
theorem scriptKey_ne_audioKey (c : String) : scriptKey c ≠ audioKey c :=
  append_ne_append _ _ c (by decide)

/-- The voice and audio keys of a card differ. -/
theorem voiceKey_ne_audioKey (c : String) : voiceKey c ≠ audioKey c :=
  append_ne_append _ _ c (by decide)

/-! ## Claim C1 — idempotency gate -/

/-- Claim C1: for every card and stage, when the stage-scoped lock key is
absent, of two successive `acquire` attempts (atomic set-if-not-exists
with a 24-hour expiry) within the TTL window, the first returns true and
the second false; only the winner dispatches a pipeline run, and the
loser gets an ignored response. -/
theorem c1_idempotency_gate (stage : Stage) (cardId : String) (now1 now2 : Nat)
    (s : RStore) (habsent : rget now1 (lockKey stage cardId) s = none)
    (hwin : now2 < now1 + 86400) :
    (acquire stage cardId now1 s).1 = true ∧
    (acquire stage cardId now2 (acquire stage cardId now1 s).2).1 = false ∧
    (gateAndDispatch stage cardId now1 s).1.2 = true ∧
    (gateAndDispatch stage cardId now1 s).1.1 = enqueuedStatus stage ∧
    (gateAndDispatch stage cardId now2 (gateAndDispatch stage cardId now1 s).2).1 =
      ("ignored", false) := by
  have h1 : acquire stage cardId now1 s =
      (true, rsetex now1 (lockKey stage cardId) "1" 86400 s) := by
    simp [acquire, rsetnx, habsent]
  have h2 : (acquire stage cardId now2 (acquire stage cardId now1 s).2) =
      ((false, (acquire stage cardId now1 s).2)) := by
    rw [h1]
    simp [acquire, rsetnx, rget_rsetex_same, hwin]
  have h3 : (gateAndDispatch stage cardId now1 s).2 =
      rsetex now1 (lockKey stage cardId) "1" 86400 s := by
    simp [gateAndDispatch, h1]
  have h4 : acquire stage cardId now2
      (rsetex now1 (lockKey stage cardId) "1" 86400 s) =
      (false, rsetex now1 (lockKey stage cardId) "1" 86400 s) := by
    simp [acquire, rsetnx, rget_rsetex_same, hwin]
  refine ⟨by rw [h1], by rw [h2], ?_, ?_, ?_⟩
  · simp [gateAndDispatch, h1]
  · simp [gateAndDispatch, h1]
  · rw [h3]
    simp [gateAndDispatch, h4]

/-- Witness for C1 at a concrete input. -/
theorem c1_idempotency_gate_witness :
    rget 0 (lockKey Stage.script "c1") emptyStore = none ∧ (100 : Nat) < 0 + 86400 ∧
    (acquire Stage.script "c1" 0 emptyStore).1 = true ∧
    (acquire Stage.script "c1" 100 (acquire Stage.script "c1" 0 emptyStore).2).1 = false ∧
    (gateAndDispatch Stage.script "c1" 100
      (gateAndDispatch Stage.script "c1" 0 emptyStore).2).1 = ("ignored", false) := by
  have h := c1_idempotency_gate Stage.script "c1" 0 100 emptyStore (by rfl) (by decide)
  exact ⟨by rfl, by decide, h.1, h.2.1, h.2.2.2.2⟩

/-! ## Claim C3 — retry budgets and backoff shape -/

/-- Counterexample to claim C3: the delay before the second retry of
`write_script` is the constant 60 seconds, not `base × attempt = 120`;
the backoff is not linear in the attempt number. -/
theorem c3_linear_backoff_cx :
    retryCountdown writeScriptPolicy 2 = 60 ∧
    retryCountdown writeScriptPolicy 2 ≠ writeScriptPolicy.default_retry_delay * 2 := by
  decide

/-- Claim C3 (amended): the per-stage retry budgets and base delays are
write-script (3, 60s), revise-script (2, 30s), generate-voice (2, 60s),
deliver (3, 30s), and the delay before every retry is the constant base
delay of the stage, for every attempt number. -/
theorem c3_retry_policy_amended :
    writeScriptPolicy = ⟨3, 60⟩ ∧ reviseScriptPolicy = ⟨2, 30⟩ ∧
    generateVoicePolicy = ⟨2, 60⟩ ∧ deliverPolicy = ⟨3, 30⟩ ∧
    ∀ n : Nat, retryCountdown writeScriptPolicy n = 60 ∧
      retryCountdown reviseScriptPolicy n = 30 ∧
      retryCountdown generateVoicePolicy n = 60 ∧
      retryCountdown deliverPolicy n = 30 :=
  ⟨rfl, rfl, rfl, rfl, fun _ => ⟨rfl, rfl, rfl, rfl⟩⟩

/-! ## Claim C5 — missing script blob in revise-script -/

/-- Claim C5 evaluation: when no script blob exists under the card's
script key, `revise_script` does not fail terminally — the `ValueError`
is caught by the task-level `except` and converted into `self.retry`,
so the outcome is `retried`, contradicting the claim (and the spec's
taxonomy, which `generate_voice` and `deliver` follow by checking their
preconditions before the `try` block). -/
theorem c5_missing_blob_is_retried :
    revise_script ⟨"REVISED"⟩ "card1" 0 emptyStore =
      (TaskOutcome.retried, [Eff.redisGetScript], emptyStore) := by
  rfl

/-! ## Claim C6 — admin reset endpoint -/

/-- Counterexample to claim C6: on a store holding all four per-card
keys, `reset_card` reports 3 deleted keys and leaves the per-card stats
accumulator key live, although the claim says the stats key is deleted
and the count would then be 4. -/
theorem c6_reset_card_cx :
    (reset_card "c1" 0 store4).1 = 3 ∧
    rget 0 (statsKey "c1") (reset_card "c1" 0 store4).2 = some "\x7b\x7d" := by
  decide

/-- Claim C6 (amended): the admin reset deletes the card's script
marker/blob key, voice lock key and audio blob key — but not the stats
accumulator key — leaves every other key unchanged, and returns the
count of keys actually deleted among those three. -/
theorem c6_reset_card_amended (cardId : String) (now : Nat) (s : RStore) :
    rget now (scriptKey cardId) (reset_card cardId now s).2 = none ∧
    rget now (voiceKey cardId) (reset_card cardId now s).2 = none ∧
    rget now (audioKey cardId) (reset_card cardId now s).2 = none ∧
    (∀ k : String, k ≠ scriptKey cardId → k ≠ voiceKey cardId →
      k ≠ audioKey cardId →
      rget now k (reset_card cardId now s).2 = rget now k s) ∧
    (reset_card cardId now s).1 =
      (if (rget now (scriptKey cardId) s).isSome then 1 else 0) +
      (if (rget now (voiceKey cardId) s).isSome then 1 else 0) +
      (if (rget now (audioKey cardId) s).isSome then 1 else 0) := by
  have hsv := scriptKey_ne_voiceKey cardId
  have hsa := scriptKey_ne_audioKey cardId
  have hva := voiceKey_ne_audioKey cardId
  simp only [reset_card]
  refine ⟨?_, ?_, ?_, ?_, ?_⟩
  · rw [rget_rdel_other _ _ _ _ hsa, rget_rdel_other _ _ _ _ hsv,
      rget_rdel_self]
  · rw [rget_rdel_other _ _ _ _ hva, rget_rdel_self]
  · rw [rget_rdel_self]
  · intro k hks hkv hka
    rw [rget_rdel_other _ _ _ _ hka, rget_rdel_other _ _ _ _ hkv,
      rget_rdel_other _ _ _ _ hks]
  · rw [rdel_count, rdel_count, rdel_count,
      rget_rdel_other _ _ _ _ hva.symm, rget_rdel_other _ _ _ _ hsv.symm,
      rget_rdel_other _ _ _ _ hsa.symm]

/-- Witness for the amended C6 at a concrete input: on `store4`, the
three keys are cleared, an unrelated key (the stats key, shown via the
generic frame property at a fresh name) is untouched, and the count is
3. -/
theorem c6_reset_card_amended_witness :
    rget 0 (scriptKey "c1") (reset_card "c1" 0 store4).2 = none ∧
    rget 0 (voiceKey "c1") (reset_card "c1" 0 store4).2 = none ∧
    rget 0 (audioKey "c1") (reset_card "c1" 0 store4).2 = none ∧
    rget 0 "snap:stats:c1" (reset_card "c1" 0 store4).2 =
      rget 0 "snap:stats:c1" store4 ∧
    (reset_card "c1" 0 store4).1 =
      (if (rget 0 (scriptKey "c1") store4).isSome then 1 else 0) +
      (if (rget 0 (voiceKey "c1") store4).isSome then 1 else 0) +
      (if (rget 0 (audioKey "c1") store4).isSome then 1 else 0) := by
  have h := c6_reset_card_amended "c1" 0 store4
  exact ⟨h.1, h.2.1, h.2.2.1,
    h.2.2.2.1 "snap:stats:c1" (by decide) (by decide) (by decide),
    h.2.2.2.2⟩

/-! ## Claim C10 — script editor save endpoint -/

/-- Claim C10: `save_script` returns 400 on a whitespace-only submission
and 404 when no blob exists under the card's script key, leaving the
store unchanged in both cases (so it can never create a blob for a card
that never had one); on success it overwrites the blob with a fresh
7-day TTL. -/
theorem c10_save_script_behavior (cardId : String) (scriptField : Option String)
    (now : Nat) (s : RStore) :
    (pyStrip (scriptField.getD "") = "" →
      save_script cardId scriptField now s = (SaveResp.badRequest, s) ∧
      (save_script cardId scriptField now s).1.statusCode = 400) ∧
    (pyStrip (scriptField.getD "") ≠ "" →
      rget now (scriptKey cardId) s = none →
      save_script cardId scriptField now s = (SaveResp.notFound, s) ∧
      (save_script cardId scriptField now s).1.statusCode = 404) ∧
    (∀ v : String, pyStrip (scriptField.getD "") ≠ "" →
      rget now (scriptKey cardId) s = some v →
      save_script cardId scriptField now s =
        (SaveResp.saved (pyWordCount (scriptField.getD "")),
          rsetex now (scriptKey cardId) (scriptField.getD "") 604800 s) ∧
      ((save_script cardId scriptField now s).2) (scriptKey cardId) =
        some (scriptField.getD "", now + 604800)) ∧
    (rget now (scriptKey cardId) s = none →
      rget now (scriptKey cardId) (save_script cardId scriptField now s).2 = none) := by
  by_cases hempty : pyStrip (scriptField.getD "") = ""
  · have hb : (pyStrip (scriptField.getD "") == "") = true := by
      rw [hempty]
      rfl
    refine ⟨fun _ => ?_, fun h => absurd hempty h, fun v h => absurd hempty h, ?_⟩
    · exact ⟨by simp [save_script, hb], by simp [save_script, hb, SaveResp.statusCode]⟩
    · intro habs
      simp [save_script, hb, habs]
  · have hb : (pyStrip (scriptField.getD "") == "") = false :=
      beq_eq_false_iff_ne.mpr hempty
    refine ⟨fun h => absurd h hempty, fun _ habs => ?_, fun v _ hsome => ?_, fun habs => ?_⟩
    · exact ⟨by simp [save_script, hb, habs],
        by simp [save_script, hb, habs, SaveResp.statusCode]⟩
    · refine ⟨by simp [save_script, hb, hsome], ?_⟩
      simp [save_script, hb, hsome, rsetex]
    · simp [save_script, hb, habs]

/-- Witness for C10 at concrete inputs: a whitespace-only body is a 400
leaving the store as is; a non-empty body on a card with no blob is a
404; a non-empty body on `c1` (whose blob exists in `storeS`) is saved
with the fresh 7-day expiry; and a card with no blob still has none
after a rejected save. -/
theorem c10_save_script_behavior_witness :
    (pyStrip "  " = "" ∧ save_script "c1" (some "  ") 0 storeS = (SaveResp.badRequest, storeS)) ∧
    (pyStrip "hi" ≠ "" ∧ rget 0 (scriptKey "c9") storeS = none ∧
      save_script "c9" (some "hi") 0 storeS = (SaveResp.notFound, storeS)) ∧
    (rget 0 (scriptKey "c1") storeS = some "old" ∧
      ((save_script "c1" (some "new text") 0 storeS).2) (scriptKey "c1") =
        some ("new text", 0 + 604800)) ∧
    rget 0 (scriptKey "c9") (save_script "c9" (some "x") 0 storeS).2 = none := by
  refine ⟨⟨by decide, ((c10_save_script_behavior "c1" (some "  ") 0 storeS).1 (by decide)).1⟩,
    ⟨by decide, by decide, ((c10_save_script_behavior "c9" (some "hi") 0 storeS).2.1 (by decide) (by decide)).1⟩,
    ⟨by decide, ((c10_save_script_behavior "c1" (some "new text") 0 storeS).2.2.1 "old" (by decide) (by decide)).2⟩,
    (c10_save_script_behavior "c9" (some "x") 0 storeS).2.2.2 (by decide)⟩

/-! ## Claim C4 — stale-write skip in write-script -/

/-- Claim C4: when the label fetch at the start of `write_script`
succeeds and any of the card's current labels, compared lower-cased,
belongs to the skip set (review, approved, generating-voice, done), the
stage returns `"skipped"`, its only effect is the label read, no effect
is an external mutation, and the store is unchanged. -/
theorem c4_stale_write_skip (cfg : PipelineConfig) (env : WriteScriptEnv)
    (cardId : String) (now : Nat) (s : RStore) (labels : List String)
    (hfetch : env.labelsFetch = .ok labels)
    (hoverlap : labels.any (fun l => (skipLabels cfg).contains (strLower l)) = true) :
    write_script cfg env cardId now s = ("skipped", [Eff.trelloGetLabels], s) ∧
    (∀ e ∈ (write_script cfg env cardId now s).2.1, e.isExternalWrite = false) ∧
    (write_script cfg env cardId now s).2.2 = s := by
  have h : write_script cfg env cardId now s = ("skipped", [Eff.trelloGetLabels], s) := by
    simp only [write_script, hfetch]
    rw [hoverlap]
    simp
  refine ⟨h, ?_, by rw [h]⟩
  rw [h]
  intro e he
  simp only [List.mem_singleton] at he
  rw [he]
  rfl

/-- Witness for C4 at a concrete input: `envSkip`'s fetched labels
contain the review label, so the run is skipped with no external
mutation on the empty store. -/
theorem c4_stale_write_skip_witness :
    envSkip.labelsFetch = .ok ["Snap: Script Ready", "ShowA (Snap)"] ∧
    (["Snap: Script Ready", "ShowA (Snap)"].any
      (fun l => (skipLabels cfgDefault).contains (strLower l)) = true) ∧
    write_script cfgDefault envSkip "c1" 0 emptyStore =
      ("skipped", [Eff.trelloGetLabels], emptyStore) := by
  refine ⟨rfl, by decide, ?_⟩
  exact (c4_stale_write_skip cfgDefault envSkip "c1" 0 emptyStore
    ["Snap: Script Ready", "ShowA (Snap)"] rfl (by decide)).1

/-! ## Claim C9 — the guard fails open -/

/-- Claim C9: the stale-work guard in `write_script` fails open — if the
label fetch raises, the stage proceeds and performs all of its external
work (the full body effect trace and both store writes); and the guard
suppresses execution only when the fetch succeeds and the returned
labels intersect the skip set, since a successful fetch without overlap
also proceeds. -/
theorem c9_guard_fails_open (cfg : PipelineConfig) (env : WriteScriptEnv)
    (cardId : String) (now : Nat) (s : RStore) :
    (env.labelsFetch = .error () →
      write_script cfg env cardId now s =
        (env.script, Eff.trelloGetLabels :: writeScriptEffects cfg env,
          writeScriptStore env cardId now s)) ∧
    (∀ labels : List String, env.labelsFetch = .ok labels →
      labels.any (fun l => (skipLabels cfg).contains (strLower l)) = false →
      write_script cfg env cardId now s =
        (env.script, Eff.trelloGetLabels :: writeScriptEffects cfg env,
          writeScriptStore env cardId now s)) := by
  constructor
  · intro herr
    simp [write_script, herr]
  · intro labels hok hno
    simp only [write_script, hok]
    rw [hno]
    simp

/-- Witness for C9 at concrete inputs: with a raising label fetch
(`envErr`) the body runs in full — including the first external
mutation, adding the writing label — and with a successful fetch free of
skip labels (`envPlain`) it runs as well. -/
theorem c9_guard_fails_open_witness :
    envErr.labelsFetch = .error () ∧
    write_script cfgDefault envErr "c1" 0 emptyStore =
      ("SCRIPT", Eff.trelloGetLabels :: writeScriptEffects cfgDefault envErr,
        writeScriptStore envErr "c1" 0 emptyStore) ∧
    Eff.trelloAddLabel cfgDefault.label_writing ∈
      (write_script cfgDefault envErr "c1" 0 emptyStore).2.1 ∧
    envPlain.labelsFetch = .ok ["Snap Script", "ShowA (Snap)"] ∧
    (["Snap Script", "ShowA (Snap)"].any
      (fun l => (skipLabels cfgDefault).contains (strLower l)) = false) ∧
    write_script cfgDefault envPlain "c1" 0 emptyStore =
      ("SCRIPT", Eff.trelloGetLabels :: writeScriptEffects cfgDefault envPlain,
        writeScriptStore envPlain "c1" 0 emptyStore) := by
  have h1 := (c9_guard_fails_open cfgDefault envErr "c1" 0 emptyStore).1 rfl
  have h2 := (c9_guard_fails_open cfgDefault envPlain "c1" 0 emptyStore).2
    ["Snap Script", "ShowA (Snap)"] rfl (by decide)
  refine ⟨rfl, h1, ?_, rfl, by decide, h2⟩
  rw [h1]
  simp [writeScriptEffects]

/-! ## Claim C8 — routing determinism -/

/-- Congruence of `List.contains` under same membership. -/
theorem contains_congr {l1 l2 : List String}
    (hm : ∀ x : String, x ∈ l1 ↔ x ∈ l2) (a : String) :
    l1.contains a = l2.contains a := by
  rw [Bool.eq_iff_iff]
  simp only [List.contains_eq_any_beq, List.any_eq_true]
  constructor
  · intro hc
    obtain ⟨x, hx, he⟩ := hc
    exact ⟨x, (hm x).mp hx, he⟩
  · intro hc
    obtain ⟨x, hx, he⟩ := hc
    exact ⟨x, (hm x).mpr hx, he⟩

/-- Congruence of `List.find?` under same membership, provided at most
one element satisfies the predicate. -/
theorem find?_congr_of_unique {p : String → Bool} {l1 l2 : List String}
    (hm : ∀ x : String, x ∈ l1 ↔ x ∈ l2)
    (hu : ∀ x ∈ l1, ∀ y ∈ l1, p x = true → p y = true → x = y) :
    l1.find? p = l2.find? p := by
  cases h1 : l1.find? p with
  | none =>
    cases h2 : l2.find? p with
    | none => rfl
    | some b =>
      have hb := List.find?_some h2
      have hbm : b ∈ l1 := (hm b).mpr (List.mem_of_find?_eq_some h2)
      exact absurd hb (List.find?_eq_none.mp h1 b hbm)
  | some a =>
    have ha := List.find?_some h1
    have ham := List.mem_of_find?_eq_some h1
    cases h2 : l2.find? p with
    | none =>
      exact absurd ha (List.find?_eq_none.mp h2 a ((hm a).mp ham))
    | some b =>
      have hb := List.find?_some h2
      have hbm : b ∈ l1 := (hm b).mpr (List.mem_of_find?_eq_some h2)
      rw [hu a ham b hbm ha hb]

/-- Congruence of `routeCore` under same membership of the lowered label
names, provided at most one of them satisfies the channel predicate. -/
theorem routeCore_congr (cfg : PipelineConfig) (actionType commentText addedLabel : String)
    {m1 m2 : List String} (hm : ∀ x : String, x ∈ m1 ↔ x ∈ m2)
    (hu : ∀ x ∈ m1, ∀ y ∈ m1, snapChannelPred cfg x = true →
      snapChannelPred cfg y = true → x = y) :
    routeCore cfg actionType m1 commentText addedLabel =
      routeCore cfg actionType m2 commentText addedLabel := by
  have hrev := contains_congr hm (strLower cfg.label_review)
  have htrig := contains_congr hm (strLower cfg.trigger_label)
  have hfind : get_snap_channel cfg m1 = get_snap_channel cfg m2 :=
    find?_congr_of_unique hm hu
  simp only [routeCore, hrev, htrig, hfind]

/-- Counterexample to claim C8: with two configured channels, the card
label lists `["ShowA (Snap)", "ShowB (Snap)"]` and
`["ShowB (Snap)", "ShowA (Snap)"]` carry the same label set, yet the
router selects a different channel for the approved-label event — the
selected channel depends on the set's enumeration order, which Python's
per-process hash randomization does not determine from the set's
contents. -/
theorem c8_routing_determinism_cx :
    (∀ x ∈ labelNameSet ["ShowA (Snap)", "ShowB (Snap)"],
      x ∈ labelNameSet ["ShowB (Snap)", "ShowA (Snap)"]) ∧
    (∀ x ∈ labelNameSet ["ShowB (Snap)", "ShowA (Snap)"],
      x ∈ labelNameSet ["ShowA (Snap)", "ShowB (Snap)"]) ∧
    trello_webhook_route cfgTwo "addLabelToCard" ["ShowA (Snap)", "ShowB (Snap)"]
      "" "Snap Approved" ≠
    trello_webhook_route cfgTwo "addLabelToCard" ["ShowB (Snap)", "ShowA (Snap)"]
      "" "Snap Approved" := by
  decide

/-- Claim C8 (amended): the route is a pure function of the action type,
the label list in enumeration order, the comment text and the added
label; and whenever at most one (lowered) label resolves to a configured
channel, it depends only on the label *set* — two enumerations with the
same members yield the identical route.  With two distinct channel
labels the selected channel depends on the enumeration order (the
documented edge case refuted above). -/
theorem c8_routing_determinism_amended (cfg : PipelineConfig)
    (actionType commentText addedLabel : String) (l1 l2 : List String)
    (hm : ∀ x : String, x ∈ labelNameSet l1 ↔ x ∈ labelNameSet l2)
    (hu : ∀ x ∈ labelNameSet l1, ∀ y ∈ labelNameSet l1,
      snapChannelPred cfg x = true → snapChannelPred cfg y = true → x = y) :
    trello_webhook_route cfg actionType l1 commentText addedLabel =
      trello_webhook_route cfg actionType l2 commentText addedLabel := by
  unfold trello_webhook_route
  by_cases hirr : (actionType != "addLabelToCard" && actionType != "commentCard") = true
  · rw [hirr]
    simp
  · have hf : (actionType != "addLabelToCard" && actionType != "commentCard") = false :=
      Bool.eq_false_iff.mpr hirr
    rw [hf]
    simp only [Bool.false_eq_true, if_false]
    exact routeCore_congr cfg actionType commentText addedLabel hm hu

/-- Witness for the amended C8 at a concrete input: one configured
channel label among the card labels, two different enumerations of the
same set. -/
theorem c8_routing_determinism_amended_witness :
    (∀ x : String, x ∈ labelNameSet ["Snap Script", "ShowA (Snap)"] ↔
      x ∈ labelNameSet ["ShowA (Snap)", "Snap Script"]) ∧
    trello_webhook_route cfgTwo "addLabelToCard" ["Snap Script", "ShowA (Snap)"]
      "" "other" =
    trello_webhook_route cfgTwo "addLabelToCard" ["ShowA (Snap)", "Snap Script"]
      "" "other" := by
  have hm : ∀ x : String, x ∈ labelNameSet ["Snap Script", "ShowA (Snap)"] ↔
      x ∈ labelNameSet ["ShowA (Snap)", "Snap Script"] := by
    intro x
    show x ∈ ["snap script", "showa (snap)"] ↔ x ∈ ["showa (snap)", "snap script"]
    constructor
    · intro hx
      rcases List.mem_cons.mp hx with h | h
      · exact List.mem_cons.mpr (Or.inr (h ▸ List.mem_singleton.mpr rfl))
      · exact List.mem_cons.mpr (Or.inl (List.mem_singleton.mp h))
    · intro hx
      rcases List.mem_cons.mp hx with h | h
      · exact List.mem_cons.mpr (Or.inr (h ▸ List.mem_singleton.mpr rfl))
      · exact List.mem_cons.mpr (Or.inl (List.mem_singleton.mp h))
  exact ⟨hm, c8_routing_determinism_amended cfgTwo "addLabelToCard" "" "other"
    ["Snap Script", "ShowA (Snap)"] ["ShowA (Snap)", "Snap Script"] hm (by decide)⟩

/-! ## Claims C2 and C7 — signature verification -/

/-- Every character the base64 alphabet lookup can return is ASCII. -/
theorem b64Char_ascii (n : Nat) : (b64Char n).toNat < 128 := by
  unfold b64Char
  rw [List.getD_eq_getElem?_getD]
  cases h : b64Alphabet[n]? with
  | none => decide
  | some c =>
    have hc : c ∈ b64Alphabet := List.getElem?_mem h
    have hall : ∀ x ∈ b64Alphabet, x.toNat < 128 := by decide
    simpa using hall c hc

/-- Every character of a base64 encoding is ASCII. -/
theorem base64Chars_ascii (l : List Nat) : ∀ c ∈ base64Chars l, c.toNat < 128 := by
  induction l using base64Chars.induct with
  | case1 b0 b1 b2 rest ih =>
    intro c hc
    simp only [base64Chars, List.mem_cons] at hc
    rcases hc with h | h | h | h | h
    · exact h ▸ b64Char_ascii _
    · exact h ▸ b64Char_ascii _
    · exact h ▸ b64Char_ascii _
    · exact h ▸ b64Char_ascii _
    · exact ih c h
  | case2 b0 b1 =>
    intro c hc
    simp only [base64Chars, List.mem_cons] at hc
    rcases hc with h | h | h | h | h
    · exact h ▸ b64Char_ascii _
    · exact h ▸ b64Char_ascii _
    · exact h ▸ b64Char_ascii _
    · rw [h]
      decide
    · exact absurd h (List.not_mem_nil c)
  | case3 b0 =>
    intro c hc
    simp only [base64Chars, List.mem_cons] at hc
    rcases hc with h | h | h | h | h
    · exact h ▸ b64Char_ascii _
    · exact h ▸ b64Char_ascii _
    · rw [h]
      decide
    · rw [h]
      decide
    · exact absurd h (List.not_mem_nil c)
  | case4 =>
    intro c hc
    exact absurd hc (List.not_mem_nil c)

/-- A base64-encoded string is pure ASCII. -/
theorem isAscii_base64 (l : List Nat) : isAsciiStr (base64Encode l) = true := by
  simp only [isAsciiStr, base64Encode, List.all_eq_true, decide_eq_true_eq]
  exact base64Chars_ascii l

/-- Counterexample to claim C7: the verifier is not total — on a
signature containing a non-ASCII character (any header byte at or above
0x80, decoded latin-1 by the web framework), `hmac.compare_digest`
raises `TypeError` instead of returning a reject. -/
theorem c7_never_raises_cx :
    verify_trello_signature sk0 bd0 "ÿbad" url0 = .error () := by
  decide

/-- Claim C7 (amended): for every secret, body, callback URL and ASCII
claimed signature, the verifier returns an accept/reject boolean and
never raises; non-ASCII signatures are the only raising inputs. -/
theorem c7_never_raises_amended (secret body : List Nat) (sig url : String)
    (hsig : isAsciiStr sig = true) :
    verify_trello_signature secret body sig url =
      .ok (expectedTrelloSig secret body url == sig) := by
  unfold verify_trello_signature pyCompareDigest
  rw [show isAsciiStr (expectedTrelloSig secret body url) = true from
    isAscii_base64 _, hsig]
  rfl

/-- Witness for the amended C7 at a concrete input. -/
theorem c7_never_raises_amended_witness :
    isAsciiStr "not-base64!" = true ∧
    verify_trello_signature sk0 bd0 "not-base64!" url0 =
      .ok (expectedTrelloSig sk0 bd0 url0 == "not-base64!") :=
  ⟨by decide, c7_never_raises_amended sk0 bd0 "not-base64!" url0 (by decide)⟩

/-- An accepting verification pins the claimed signature to the expected
one (and the claimed signature is then ASCII, like the expected one). -/
theorem accept_eq_expected (secret body : List Nat) (sig url : String)
    (hacc : verify_trello_signature secret body sig url = .ok true) :
    sig = expectedTrelloSig secret body url := by
  unfold verify_trello_signature pyCompareDigest at hacc
  by_cases hcond : (isAsciiStr (expectedTrelloSig secret body url) && isAsciiStr sig) = true
  · rw [if_pos hcond] at hacc
    have hb : (expectedTrelloSig secret body url == sig) = true := Except.ok.inj hacc
    exact (beq_iff_eq.mp hb).symm
  · rw [if_neg hcond] at hacc
    exact absurd hacc (by simp)

/-- Counterexample to claim C2: mutating a single byte of an accepted
signature does not always flip the result to reject — mutating its first
byte to 0xFF (latin-1 `ÿ`) makes `hmac.compare_digest` raise `TypeError`
instead of rejecting. -/
theorem c2_signature_mutation_cx :
    verify_trello_signature sk0 bd0 sig0 url0 = .ok true ∧
    verify_trello_signature sk0 bd0 "ÿJiMWXLfuuOYDNiEfjfj7wWHAI0=" url0 = .error () := by
  constructor
  · decide
  · decide

/-- Claim C2 (amended): the verifier accepts exactly the signature
`base64(HMAC-SHA1(secret, body || callback_url))`; mutating an accepted
signature to any other ASCII string flips the result to reject (a
non-ASCII mutation raises instead, per the counterexample); and any
mutation of the body or the callback URL that changes the encoded MAC
flips the result to reject. -/
theorem c2_signature_correctness (secret body : List Nat) (sig url : String) :
    (isAsciiStr sig = true →
      (verify_trello_signature secret body sig url = .ok true ↔
        sig = expectedTrelloSig secret body url)) ∧
    (∀ sig2 : String, verify_trello_signature secret body sig url = .ok true →
      isAsciiStr sig2 = true → sig2 ≠ sig →
      verify_trello_signature secret body sig2 url = .ok false) ∧
    (∀ body2 : List Nat, verify_trello_signature secret body sig url = .ok true →
      expectedTrelloSig secret body2 url ≠ expectedTrelloSig secret body url →
      verify_trello_signature secret body2 sig url = .ok false) ∧
    (∀ url2 : String, verify_trello_signature secret body sig url = .ok true →
      expectedTrelloSig secret body url2 ≠ expectedTrelloSig secret body url →
      verify_trello_signature secret body sig url2 = .ok false) := by
  have hE := isAscii_base64 (hmacSha1 secret (body ++ utf8Encode url))
  refine ⟨?_, ?_, ?_, ?_⟩
  · intro hsig
    unfold verify_trello_signature pyCompareDigest
    rw [show isAsciiStr (expectedTrelloSig secret body url) = true from hE, hsig]
    simp only [Bool.and_self, if_true]
    constructor
    · intro h
      have hb : (expectedTrelloSig secret body url == sig) = true :=
        Except.ok.inj h
      exact (beq_iff_eq.mp hb).symm
    · intro h
      rw [h, beq_self_eq_true]
  · intro sig2 hacc hsig2 hne
    have hsigeq : sig = expectedTrelloSig secret body url :=
      accept_eq_expected secret body sig url hacc
    unfold verify_trello_signature pyCompareDigest
    rw [show isAsciiStr (expectedTrelloSig secret body url) = true from hE, hsig2]
    simp only [Bool.and_self, if_true]
    have : (expectedTrelloSig secret body url == sig2) = false := by
      rw [beq_eq_false_iff_ne]
      intro h
      exact hne ((h ▸ hsigeq).symm)
    rw [this]
  · intro body2 hacc hmac
    have hsigeq : sig = expectedTrelloSig secret body url :=
      accept_eq_expected secret body sig url hacc
    have hE2 := isAscii_base64 (hmacSha1 secret (body2 ++ utf8Encode url))
    unfold verify_trello_signature pyCompareDigest
    rw [show isAsciiStr (expectedTrelloSig secret body2 url) = true from hE2,
      show isAsciiStr sig = true from hsigeq ▸ hE]
    simp only [Bool.and_self, if_true]
    have : (expectedTrelloSig secret body2 url == sig) = false := by
      rw [beq_eq_false_iff_ne, hsigeq]
      exact hmac
    rw [this]
  · intro url2 hacc hmac
    have hsigeq : sig = expectedTrelloSig secret body url :=
      accept_eq_expected secret body sig url hacc
    have hE2 := isAscii_base64 (hmacSha1 secret (body ++ utf8Encode url2))
    unfold verify_trello_signature pyCompareDigest
    rw [show isAsciiStr (expectedTrelloSig secret body url2) = true from hE2,
      show isAsciiStr sig = true from hsigeq ▸ hE]
    simp only [Bool.and_self, if_true]
    have : (expectedTrelloSig secret body url2 == sig) = false := by
      rw [beq_eq_false_iff_ne, hsigeq]
      exact hmac
    rw [this]

/-- Witness for the amended C2 at concrete inputs: `sig0` authenticates
`bd0` against `url0` under `sk0`; a different ASCII signature is
rejected; a body extended by one byte is rejected; a different callback
URL is rejected. -/
theorem c2_signature_correctness_witness :
    (verify_trello_signature sk0 bd0 sig0 url0 = .ok true ↔
      sig0 = expectedTrelloSig sk0 bd0 url0) ∧
    verify_trello_signature sk0 bd0 "AAAA" url0 = .ok false ∧
    verify_trello_signature sk0 (bd0 ++ [0]) sig0 url0 = .ok false ∧
    verify_trello_signature sk0 bd0 sig0 "https://example.com/other" = .ok false := by
  have h := c2_signature_correctness sk0 bd0 sig0 url0
  refine ⟨h.1 (by decide), ?_, ?_, ?_⟩
  · exact h.2.1 "AAAA" (by decide) (by decide) (by decide)
  · exact h.2.2.1 (bd0 ++ [0]) (by decide) (by decide)
  · exact h.2.2.2 "https://example.com/other" (by decide) (by decide)

end SnapPipeline
